import Mathlib

/-!
Verification of the image-grid viewer (plotsoftware.py).

Strings from the program are embedded as lists of characters (type Str)
so that every operation is executable and kernel-reducible; Python string
functions used by the program are given faithful executable counterparts
below.  Filesystem access, font measurement and bitmap decoding are
external collaborators of the program and are modelled as explicit
function parameters.  Python float arithmetic is modelled by exact
rational arithmetic; Python int truncation is pyInt.
-/

/-- Program strings, embedded as character lists so equality, ordering and
slicing all compute. -/
abbrev Str := List Char

/-- Python str.lower, restricted to the character-wise case mapping. -/
def lowerStr (s : Str) : Str := s.map Char.toLower

/-- leadsWith pat s decides whether pat is an initial segment of s. -/
def leadsWith : Str → Str → Bool
  | [], _ => true
  | _ :: _, [] => false
  | c :: cs, d :: ds => c == d && leadsWith cs ds

/-- Python str.endswith for a single suffix. -/
def hasSuffix (s suf : Str) : Bool := leadsWith suf.reverse s.reverse

/-- The supported image extensions of the program (plotsoftware.py line 17
and the copies at lines 112, 125 and 139). -/
def supportedExts : List Str :=
  [".png".toList, ".jpg".toList, ".jpeg".toList, ".gif".toList,
   ".bmp".toList, ".tiff".toList, ".webp".toList]

/-- f.lower().endswith(supported_exts): the test used to recognise images. -/
def supportedExt (f : Str) : Bool :=
  supportedExts.any (fun e => hasSuffix (lowerStr f) e)

/-- os.path.join for POSIX paths, two components. -/
def pathJoin (a b : Str) : Str :=
  if b.head? = some '/' then b
  else if a = [] then b
  else if a.getLast? = some '/' then a ++ b
  else a ++ '/' :: b

/-- Helper of splitextRoot and baseName: on a reversed string, the part
before the first slash seen from the end, reversed in place. -/
def takeUntilSlash : Str → Str
  | [] => []
  | c :: rest => if c = '/' then [] else c :: takeUntilSlash rest

/-- os.path.basename. -/
def baseName (p : Str) : Str := (takeUntilSlash p.reverse).reverse

/-- Helper of splitextRoot: on a reversed name, the portion after the
first dot seen from the end, when there is a dot. -/
def dropUpToDot : Str → Option Str
  | [] => none
  | c :: rest => if c = '.' then some rest else dropUpToDot rest

/-- os.path.splitext(p)[0]: the path without its last extension; a dot only
splits when a non-dot character precedes it inside the final component. -/
def splitextRoot (p : Str) : Str :=
  let revName := takeUntilSlash p.reverse
  match dropUpToDot revName with
  | none => p
  | some revBefore =>
    if revBefore.any (fun c => c != '.') then
      p.take (p.length - (revName.length - revBefore.length))
    else p

/-- The filesystem as the program sees it: the base-folder listing and the
directory test, listing and file test used for the variant folders
(os.listdir, os.path.isdir, os.path.isfile on full paths). -/
structure FS where
  baseListing : List Str
  isdir : Str → Bool
  listing : Str → List Str
  isfile : Str → Bool

/-- The base_images list collected by ImageGrid.build_grid (lines 123-126):
the base-folder entries with a supported image extension, in listing order. -/
def base_images (fs : FS) : List Str := fs.baseListing.filter supportedExt

/-- The folders list of build_grid (lines 130-134): for every base image in
sorted order, the pair of the image name and its expected variant folder. -/
def gridFolders (subfoldersDir : Str) (fs : FS) : List (Str × Str) :=
  (List.insertionSort (fun a b : Str => a ≤ b) (base_images fs)).map
    (fun b => (b, pathJoin subfoldersDir (splitextRoot b)))

/-- The all_filenames collection of build_grid (lines 135-140): supported
entries of every variant folder that exists, concatenated in iteration
order (the program stores them in a set; only membership matters). -/
def all_filenames (subfoldersDir : Str) (fs : FS) : List Str :=
  (gridFolders subfoldersDir fs).foldl
    (fun acc p =>
      if fs.isdir p.2 then acc ++ (fs.listing p.2).filter supportedExt else acc)
    []

/-- sorted(all_filenames) over the set of collected names (line 141). -/
def sorted_filenames (subfoldersDir : Str) (fs : FS) : List Str :=
  List.insertionSort (fun a b : Str => a ≤ b) (all_filenames subfoldersDir fs).dedup

/-- ImageGrid.build_grid (lines 121-157).  The Python grid is a dict with
contiguous keys 0..n-1 holding lists of strings; it is embedded as the list
of its rows.  An empty base folder yields the empty grid (the code prints a
message and returns an empty dict). -/
def build_grid (baseFolder subfoldersDir : Str) (fs : FS) : List (List Str) :=
  if base_images fs = [] then []
  else
    let fl := gridFolders subfoldersDir fs
    let row0 : List Str := [] :: fl.map (fun p => baseName p.2)
    let row1 : List Str := "Base Images".toList :: fl.map (fun p => pathJoin baseFolder p.1)
    let rows := (sorted_filenames subfoldersDir fs).map
      (fun fn =>
        fn :: fl.map (fun p =>
          let ip := pathJoin p.2 fn
          if fs.isfile ip then ip else "PLACEHOLDER:".toList))
    row0 :: row1 :: rows

/-- The header texts of the variant rows (rows with index at least 2): the
column-0 entry of each such row. -/
def variantNames (grid : List (List Str)) : List Str :=
  (grid.drop 2).map (fun r => r.getD 0 [])

/-- A two-tree example filesystem: one base image x.png, its variant folder
v/x holding B.png and a.png. -/
def exFS : FS where
  baseListing := ["x.png".toList]
  isdir := fun p => p = "v/x".toList
  listing := fun p => if p = "v/x".toList then ["B.png".toList, "a.png".toList] else []
  isfile := fun p => p = "v/x/B.png".toList || p = "v/x/a.png".toList

/-- A filesystem whose base folder holds no supported image. -/
def emptyFS : FS where
  baseListing := ["notes.txt".toList]
  isdir := fun _ => false
  listing := fun _ => []
  isfile := fun _ => false

/-- The visible_paths set built by ImageGrid.unload_distant_images (lines
193-199): the cells of every grid row in start_row..end_row, columns
start_col up to min(end_col + 1, row length), collected as a list. -/
def visible_paths (grid : List (List Str)) (sr er sc ec : ℕ) : List Str :=
  (List.range' sr (er + 1 - sr)).foldl
    (fun acc row =>
      if row < grid.length then
        acc ++ (List.range' sc (min (ec + 1) (grid.getD row []).length - sc)).map
          (fun col => (grid.getD row []).getD col [])
      else acc)
    []

/-- ImageGrid.unload_distant_images (lines 193-202): every cached path not
among the visible cells and different from the fullscreen image is deleted.
The cache is embedded by its key list. -/
def unload_distant_images (grid : List (List Str)) (sr er sc ec : ℕ)
    (cache : List Str) (fullscreen_image : Option Str) : List Str :=
  cache.filter
    (fun path => (visible_paths grid sr er sc ec).contains path
      || fullscreen_image == some path)

/-- The viewport fields of ImageGrid that zoom, scroll and
enforce_scroll_bounds read and write.  Python floats are embedded as exact
rationals, cell_size is an int, max_rows and max_cols are fixed by the
grid. -/
structure ViewState where
  fullscreen_image : Option Str
  zoom_level : ℚ
  cell_size : ℤ
  scroll_offset_x : ℚ
  scroll_offset_y : ℚ
  max_rows : ℕ
  max_cols : ℕ
  deriving DecidableEq

/-- Python int() on a float value: truncation toward zero, on rationals. -/
def pyInt (q : ℚ) : ℤ := q.num.tdiv q.den

/-- INFO_HEIGHT (line 56). -/
def INFO_HEIGHT : ℤ := 30

/-- ImageGrid.enforce_scroll_bounds (lines 485-492), with the screen size
passed explicitly. -/
def enforce_scroll_bounds (screenW screenH : ℤ) (s : ViewState) : ViewState :=
  if s.fullscreen_image.isSome then s
  else
    let maxX : ℤ := max 0 ((s.max_cols : ℤ) * s.cell_size - screenW)
    let maxY : ℤ := max 0 ((s.max_rows : ℤ) * s.cell_size - (screenH - INFO_HEIGHT))
    { s with scroll_offset_x := max 0 (min (maxX : ℚ) s.scroll_offset_x),
             scroll_offset_y := max 0 (min (maxY : ℚ) s.scroll_offset_y) }

/-- The anchored branch of ImageGrid.zoom (lines 472-480) before the final
enforce_scroll_bounds: the new zoom level is clamped to [MIN_ZOOM,
MAX_ZOOM]; the grid coordinate under the mouse is computed with the old
cell_size, the new cell_size is int(DEFAULT_CELL_SIZE * zoom_level), and
the scroll offset is recomputed from the grid coordinate.  D is the
DEFAULT_CELL_SIZE global fixed at startup. -/
def zoom_anchor_raw (D : ℤ) (s : ViewState) (direction : ℤ) (mx my : ℚ) : ViewState :=
  let zl := max (1/20 : ℚ) (min 3 (s.zoom_level + (direction : ℚ) * (1/20)))
  let gx := (s.scroll_offset_x + mx) / (s.cell_size : ℚ)
  let gy := (s.scroll_offset_y + my - (INFO_HEIGHT : ℚ)) / (s.cell_size : ℚ)
  let cs := pyInt ((D : ℚ) * zl)
  { s with zoom_level := zl, cell_size := cs,
           scroll_offset_x := gx * (cs : ℚ) - mx,
           scroll_offset_y := gy * (cs : ℚ) - (my - (INFO_HEIGHT : ℚ)) }

/-- ImageGrid.zoom (lines 469-483): a no-op while fullscreen; otherwise the
zoom level is stepped and clamped, the cell size recomputed, the scroll
offset re-anchored when a mouse position is given, and the scroll bounds
enforced. -/
def zoom (D screenW screenH : ℤ) (s : ViewState) (direction : ℤ)
    (mouse : Option (ℚ × ℚ)) : ViewState :=
  if s.fullscreen_image.isSome then s
  else
    match mouse with
    | some (mx, my) =>
      enforce_scroll_bounds screenW screenH (zoom_anchor_raw D s direction mx my)
    | none =>
      let zl := max (1/20 : ℚ) (min 3 (s.zoom_level + (direction : ℚ) * (1/20)))
      enforce_scroll_bounds screenW screenH
        { s with zoom_level := zl, cell_size := pyInt ((D : ℚ) * zl) }

/-- ImageGrid.scroll (lines 494-499): a no-op while fullscreen; otherwise
the offset is shifted and the scroll bounds enforced. -/
def scroll (screenW screenH : ℤ) (s : ViewState) (dx dy : ℚ) : ViewState :=
  if s.fullscreen_image.isSome then s
  else
    enforce_scroll_bounds screenW screenH
      { s with scroll_offset_x := s.scroll_offset_x + dx,
               scroll_offset_y := s.scroll_offset_y + dy }

/-- A browsing-mode viewport at zoom 1 on a 5 by 5 grid. -/
def exView : ViewState where
  fullscreen_image := none
  zoom_level := 1
  cell_size := 100
  scroll_offset_x := 0
  scroll_offset_y := 0
  max_rows := 5
  max_cols := 5

/-- The example viewport focused on a fullscreen image. -/
def exViewFS : ViewState := { exView with fullscreen_image := some ['p'] }

/-- The fullscreen-focus fields of ImageGrid: the focused image path and
its grid position (None in browsing mode).  The decoded surface
fullscreen_original is external rendering state and is not modelled. -/
structure FocusState where
  fullscreen_image : Option Str
  fullscreen_row : Option ℕ
  fullscreen_col : Option ℕ
  deriving DecidableEq

/-- ImageGrid.toggle_fullscreen (lines 501-530) on the focus fields:
re-selecting the focused cell clears the focus, any other cell becomes the
focus with its grid entry as image path. -/
def toggle_fullscreen (grid : List (List Str)) (st : FocusState) (row col : ℕ) : FocusState :=
  if st.fullscreen_row = some row ∧ st.fullscreen_col = some col then
    { fullscreen_image := none, fullscreen_row := none, fullscreen_col := none }
  else
    { fullscreen_image := some ((grid.getD row []).getD col []),
      fullscreen_row := some row, fullscreen_col := some col }

/-- The four arrow directions of navigate_fullscreen. -/
inductive NavDir
  | left
  | right
  | up
  | down
  deriving DecidableEq

/-- The target cell computed by ImageGrid.navigate_fullscreen (lines
537-556): none models the early returns at the right and bottom edges. -/
def nav_target (grid : List (List Str)) (maxRows row col : ℕ) : NavDir → Option (ℕ × ℕ)
  | .left => some (row, max 1 (col - 1))
  | .right => if col + 1 < (grid.getD row []).length then some (row, col + 1) else none
  | .up => some (max 1 (row - 1), col)
  | .down => if row + 1 < maxRows then some (row + 1, col) else none

/-- ImageGrid.navigate_fullscreen (lines 532-561).  The guard mirrors the
Python truthiness test (an empty image path also returns); a target equal
to the current cell or outside the grid returns unchanged; otherwise
toggle_fullscreen moves the focus.  maxRows is self.max_rows = len(grid). -/
def navigate_fullscreen (grid : List (List Str)) (maxRows : ℕ) (st : FocusState)
    (dir : NavDir) : FocusState :=
  match st.fullscreen_image, st.fullscreen_row, st.fullscreen_col with
  | some img, some row, some col =>
    if img = [] then st
    else
      match nav_target grid maxRows row col dir with
      | none => st
      | some (nr, nc) =>
        if nr = row ∧ nc = col then st
        else if grid.length ≤ nr ∨ (grid.getD nr []).length ≤ nc then st
        else toggle_fullscreen grid st nr nc
  | _, _, _ => st

/-- The 4 by 2 example grid built from exFS, as a standalone value. -/
def exGrid : List (List Str) :=
  [[[], "x".toList],
   ["Base Images".toList, "b/x.png".toList],
   ["B.png".toList, "v/x/B.png".toList],
   ["a.png".toList, "v/x/a.png".toList]]

/-- A focus state on cell (1, 1) of the example grid. -/
def exFocus : FocusState where
  fullscreen_image := some "b/x.png".toList
  fullscreen_row := some 1
  fullscreen_col := some 1

/-- The ellipsis literal of draw_wrapped_text (line 211). -/
def ellipsisStr : Str := "...".toList

/-- The whitespace test of Python str.strip and str.lstrip (ASCII range). -/
def pyWhite (c : Char) : Bool :=
  c == ' ' || c == '\t' || c == '\n' || c == '\r' || c == '\x0b' || c == '\x0c'

/-- Python str.lstrip(). -/
def pyLstrip (s : Str) : Str := s.dropWhile pyWhite

/-- Python str.strip(). -/
def pyStrip (s : Str) : Str := ((s.dropWhile pyWhite).reverse.dropWhile pyWhite).reverse

/-- Python str.rfind for a single character: the last index, -1 if absent. -/
def rfindChar (s : Str) (c : Char) : ℤ :=
  match s.reverse.findIdx? (fun d => d == c) with
  | none => -1
  | some k => (s.length : ℤ) - 1 - (k : ℤ)

/-- The binary search of draw_wrapped_text (lines 216-227): the longest
count of leading characters of the remaining text whose measured width
fits max_width.  size is the external font measure font.size(text)[0].
The loop runs while low is at most high; the fuel argument bounds the
iteration count and is called with remaining.length + 2, which exceeds the
number of halving steps. -/
def bsearch_loop (size : Str → ℕ) (max_width : ℤ) (remaining : Str) :
    ℕ → ℤ → ℤ → Str → Str
  | 0, _, _, best => best
  | fuel + 1, low, high, best =>
    if low ≤ high then
      let mid := Int.fdiv (low + high) 2
      let test := remaining.take mid.toNat
      if (size test : ℤ) ≤ max_width then
        bsearch_loop size max_width remaining fuel (mid + 1) high test
      else
        bsearch_loop size max_width remaining fuel low (mid - 1) best
    else best

/-- The fallback loop of draw_wrapped_text (lines 228-234): the longest
count i, scanned downward from the full length, with remaining[:i] plus
the ellipsis fitting max_width; the empty string when none fits. -/
def fallback_loop (size : Str → ℕ) (max_width : ℤ) (remaining : Str) : ℕ → Str
  | 0 => []
  | i + 1 =>
    let test := remaining.take (i + 1) ++ ellipsisStr
    if (size test : ℤ) ≤ max_width then test else fallback_loop size max_width remaining i

/-- The word-boundary trim of draw_wrapped_text (lines 238-243): when the
chosen slice holds a space and did not consume the remaining text, it is
cut back to the last space, provided the cut is positive and still fits. -/
def word_trim (size : Str → ℕ) (max_width : ℤ) (remaining best : Str) : Str :=
  if best.contains ' ' && decide (best.length < remaining.length) then
    let last_space := rfindChar best ' '
    if 0 < last_space then
      let candidate := best.take last_space.toNat
      if (size candidate : ℤ) ≤ max_width then candidate else best
    else best
  else best

/-- The main while loop of draw_wrapped_text (lines 215-247), fuelled by
the number of line slots still open (the loop guard len(lines) < max_lines)
and returning the final remaining text with the produced lines. -/
def wrap_loop (size : Str → ℕ) (max_width : ℤ) : ℕ → Str → List Str → Str × List Str
  | 0, remaining, lines => (remaining, lines)
  | slots + 1, remaining, lines =>
    if remaining = [] then (remaining, lines)
    else
      let best0 := bsearch_loop size max_width remaining (remaining.length + 2) 0
        (remaining.length : ℤ) []
      let best1 :=
        if best0 = [] then
          let fb := fallback_loop size max_width remaining remaining.length
          if fb = [] then
            if (size ellipsisStr : ℤ) ≤ max_width then ellipsisStr else []
          else fb
        else best0
      if best1 = [] then (remaining, lines)
      else
        let best2 := word_trim size max_width remaining best1
        wrap_loop size max_width slots (pyLstrip (remaining.drop best2.length))
          (lines ++ [best2])

/-- The final shrink loop of draw_wrapped_text (lines 253-254): the last
line is shortened while it is nonempty and one character less plus the
ellipsis still overflows; fuelled by the line length, which bounds the
iterations. -/
def shrink_loop (size : Str → ℕ) (max_width : ℤ) : Str → ℕ → Str
  | last_line, 0 => last_line
  | last_line, fuel + 1 =>
    if last_line ≠ [] ∧ max_width < (size (last_line.dropLast ++ ellipsisStr) : ℤ) then
      shrink_loop size max_width last_line.dropLast fuel
    else last_line

/-- ImageGrid.draw_wrapped_text (lines 204-260), returning the list of
rendered lines.  size and line_height are the external font collaborator
(font.size(text)[0] and font.get_height()); the box is rect.width by
rect.height. -/
def draw_wrapped_text (size : Str → ℕ) (line_height : ℕ) (rectW rectH : ℤ)
    (text : Str) : List Str :=
  if pyStrip text = [] then []
  else
    let max_width : ℤ := rectW - 10
    let max_lines : ℕ := max 1 ((Int.fdiv (rectH - 10) (line_height : ℤ)).toNat)
    let wl := wrap_loop size max_width max_lines (pyStrip text) []
    if wl.1 ≠ [] ∧ wl.2.length = max_lines then
      match wl.2.getLast? with
      | none => wl.2
      | some last_line =>
        if (size last_line : ℤ) + (size ellipsisStr : ℤ) ≤ max_width then
          wl.2.dropLast ++ [last_line ++ ellipsisStr]
        else
          wl.2.dropLast ++ [shrink_loop size max_width last_line last_line.length ++ ellipsisStr]
    else wl.2

/-- The export-pipeline fields of ImageGrid: the single-flight flag, the
progress display fields and the completion queue, embedded as the list of
the (kind, result) tuples posted so far. -/
structure ExportState where
  export_in_progress : Bool
  current_progress : ℚ
  current_message : Str
  export_queue : List (Str × Option Str)
  deriving DecidableEq

/-- ImageGrid.start_export_grid (lines 588-606) up to spawning the worker:
while a job is in progress it returns None and changes nothing; otherwise
it raises the flag, resets the progress display and returns the chosen
filename (the default carries a timestamp, an external input here). -/
def start_export_grid (s : ExportState) (filename : Option Str) (timestamp : Str) :
    Option Str × ExportState :=
  if s.export_in_progress then (none, s)
  else
    let fn := match filename with
      | none => "grid_export_".toList ++ timestamp ++ ".png".toList
      | some f =>
        if f = [] then "grid_export_".toList ++ timestamp ++ ".png".toList else f
    (some fn,
      { s with export_in_progress := true, current_progress := 0,
               current_message := "Exporting PNG...".toList })

/-- The worker body of start_export_grid (lines 598-603): _export_grid
catches every exception internally and returns None on failure, so its
outcome is an Option value; the body posts exactly one tuple and the
finally block clears the flag on every path. -/
def export_grid_thread_body (s : ExportState) (result : Option Str) : ExportState :=
  { s with export_queue := s.export_queue ++ [("grid".toList, result)],
           export_in_progress := false }

/-- ImageGrid.start_export_html (lines 735-750) up to spawning the worker. -/
def start_export_html (s : ExportState) (output_folder : Str) :
    Option Str × ExportState :=
  if s.export_in_progress then (none, s)
  else
    (some (pathJoin output_folder "index.html".toList),
      { s with export_in_progress := true, current_progress := 0,
               current_message := "Exporting HTML...".toList })

/-- The worker body of start_export_html (lines 742-747). -/
def export_html_thread_body (s : ExportState) (result : Option Str) : ExportState :=
  { s with export_queue := s.export_queue ++ [("html".toList, result)],
           export_in_progress := false }

/-- An export state with a job in flight. -/
def exExport : ExportState where
  export_in_progress := true
  current_progress := 0
  current_message := "Exporting PNG...".toList
  export_queue := []

/-- MIN_COLUMN_0_WIDTH (line 32). -/
def MIN_COLUMN_0_WIDTH : ℕ := 128

/-- MAX_COLUMN_0_WIDTH (line 33). -/
def MAX_COLUMN_0_WIDTH : ℕ := 256

/-- MIN_ROW_0_HEIGHT (line 34): the source sets it to 256, above
MAX_ROW_0_HEIGHT. -/
def MIN_ROW_0_HEIGHT : ℕ := 256

/-- MAX_ROW_0_HEIGHT (line 35): the source sets it to 128. -/
def MAX_ROW_0_HEIGHT : ℕ := 128

/-- Python str.split with a newline separator. -/
def splitLinesAux : Str → Str → List Str
  | [], cur => [cur.reverse]
  | c :: rest, cur =>
    if c = '\n' then cur.reverse :: splitLinesAux rest []
    else splitLinesAux rest (c :: cur)

/-- text.split with a newline separator, as used at line 662. -/
def splitLines (s : Str) : List Str := splitLinesAux s []

/-- The column-0 width pass of ImageGrid._export_grid (lines 644-652):
starting from MIN_COLUMN_0_WIDTH, each nonempty row header widens the
column to its measured width plus 20, capped at MAX_COLUMN_0_WIDTH.
text_width is the external font measure (bbox width). -/
def export_column_0_width (text_width : Str → ℕ) (grid : List (List Str)) : ℕ :=
  (List.range grid.length).foldl
    (fun acc row =>
      let r := grid.getD row []
      if r.length > 0 then
        let text := if row > 0 then r.getD 0 [] else []
        if text ≠ [] then max acc (min (text_width text + 20) MAX_COLUMN_0_WIDTH)
        else acc
      else acc)
    MIN_COLUMN_0_WIDTH

/-- The row-0 height pass of ImageGrid._export_grid (lines 653-664):
starting from MIN_ROW_0_HEIGHT, each nonempty column header contributes
min(MIN_ROW_0_HEIGHT + lines * line_height, MAX_ROW_0_HEIGHT).
line_height is the external font line height (bbox of the letter A). -/
def export_row_0_height (line_height : ℕ) (grid : List (List Str)) : ℕ :=
  if grid.length > 0 then
    (List.range (grid.getD 0 []).length).foldl
      (fun acc col =>
        let text := (grid.getD 0 []).getD col []
        if text ≠ [] then
          max acc (min (MIN_ROW_0_HEIGHT + (splitLines text).length * line_height)
            MAX_ROW_0_HEIGHT)
        else acc)
      MIN_ROW_0_HEIGHT
  else MIN_ROW_0_HEIGHT

/-- The per-cell width of the export layout (line 678). -/
def export_cell_width (column_0_width cell_size col : ℕ) : ℕ :=
  if col = 0 then column_0_width else cell_size

/-- The per-cell height of the export layout (line 679). -/
def export_cell_height (row_0_height cell_size row : ℕ) : ℕ :=
  if row = 0 then row_0_height else cell_size

/-- C1: for a base folder with at least one supported image, build_grid has
2 + (number of distinct variant filenames) rows and every row, rows 0 and 1
included, has 1 + (number of base images) entries. -/
theorem build_grid_shape (baseFolder subfoldersDir : Str) (fs : FS)
    (h : base_images fs ≠ []) :
    (build_grid baseFolder subfoldersDir fs).length
        = 2 + (all_filenames subfoldersDir fs).dedup.length
      ∧ ∀ row ∈ build_grid baseFolder subfoldersDir fs,
          row.length = 1 + (base_images fs).length := by
  have hfl : (gridFolders subfoldersDir fs).length = (base_images fs).length := by
    unfold gridFolders
    rw [List.length_map]
    exact (List.perm_insertionSort _ _).length_eq
  constructor
  · unfold build_grid
    rw [if_neg h]
    simp only [List.length_cons, List.length_map]
    unfold sorted_filenames
    rw [(List.perm_insertionSort _ _).length_eq]
    omega
  · intro row hrow
    unfold build_grid at hrow
    rw [if_neg h] at hrow
    simp only [List.mem_cons, List.mem_map] at hrow
    rcases hrow with h0 | h1 | ⟨fn, _, hfn⟩
    · subst h0; simp [hfl]; omega
    · subst h1; simp [hfl]; omega
    · subst hfn; simp [hfl]; omega

/-- C1 witness: the example filesystem has one base image and two distinct
variant filenames, so the grid is 4 rows of 2 entries. -/
theorem build_grid_shape_witness :
    base_images exFS ≠ []
      ∧ ((build_grid "b".toList "v".toList exFS).length
            = 2 + (all_filenames "v".toList exFS).dedup.length
          ∧ ∀ row ∈ build_grid "b".toList "v".toList exFS,
              row.length = 1 + (base_images exFS).length) :=
  ⟨by decide, build_grid_shape "b".toList "v".toList exFS (by decide)⟩

/-- C7 counterexample: with variant files B.png and a.png, the built grid
orders the variant rows B.png before a.png (code-point order), which is not
case-insensitive lexicographic order. -/
theorem variant_order_not_case_insensitive :
    ¬ List.Sorted (fun a b : Str => lowerStr a ≤ lowerStr b)
        (variantNames (build_grid "b".toList "v".toList exFS)) := by
  decide

/-- C7 amended: the variant-filename rows are sorted in case-sensitive
code-point lexicographic order, and rebuilding on identical filesystem
state yields the identical grid. -/
theorem variant_order_sorted (baseFolder subfoldersDir : Str) (fs fs2 : FS)
    (h : fs = fs2) :
    List.Sorted (fun a b : Str => a ≤ b)
        (variantNames (build_grid baseFolder subfoldersDir fs))
      ∧ build_grid baseFolder subfoldersDir fs = build_grid baseFolder subfoldersDir fs2 := by
  subst h
  refine ⟨?_, rfl⟩
  unfold build_grid
  by_cases hb : base_images fs = []
  · rw [if_pos hb]; simp [variantNames]
  · rw [if_neg hb]
    have : variantNames
        ((([] : Str) :: (gridFolders subfoldersDir fs).map (fun p => baseName p.2)) ::
          ("Base Images".toList ::
              (gridFolders subfoldersDir fs).map (fun p => pathJoin baseFolder p.1)) ::
          (sorted_filenames subfoldersDir fs).map
            (fun fn =>
              fn :: (gridFolders subfoldersDir fs).map (fun p =>
                let ip := pathJoin p.2 fn
                if fs.isfile ip then ip else "PLACEHOLDER:".toList)))
        = sorted_filenames subfoldersDir fs := by
      unfold variantNames
      simp only [List.drop_succ_cons, List.drop_zero, List.map_map]
      have hid : ((fun r : List Str => r.getD 0 []) ∘ fun fn =>
          fn :: (gridFolders subfoldersDir fs).map (fun p =>
            let ip := pathJoin p.2 fn
            if fs.isfile ip then ip else "PLACEHOLDER:".toList)) = id :=
        funext fun fn => rfl
      rw [hid, List.map_id]
    rw [this]
    exact List.sorted_insertionSort _ _

/-- C7 witness: the amended ordering statement evaluated on the example
filesystem. -/
theorem variant_order_sorted_witness :
    exFS = exFS
      ∧ (List.Sorted (fun a b : Str => a ≤ b)
            (variantNames (build_grid "b".toList "v".toList exFS))
          ∧ build_grid "b".toList "v".toList exFS = build_grid "b".toList "v".toList exFS) :=
  ⟨rfl, variant_order_sorted "b".toList "v".toList exFS exFS rfl⟩

/-- C8 counterexample: on a base folder without a supported image,
build_grid does not fail; it returns the empty grid as an ordinary value,
so startup is not aborted by the build step. -/
theorem build_grid_empty_returns_value :
    base_images emptyFS = [] ∧ build_grid "b".toList "v".toList emptyFS = [] := by
  decide

/-- C8 amended: whenever the base folder holds no supported image,
build_grid returns the empty grid (after printing a message) instead of
raising an error, and the program proceeds past the build. -/
theorem build_grid_empty_base (baseFolder subfoldersDir : Str) (fs : FS)
    (h : base_images fs = []) :
    build_grid baseFolder subfoldersDir fs = [] := by
  unfold build_grid
  rw [if_pos h]

/-- C8 witness: the amended statement evaluated on the image-free
filesystem. -/
theorem build_grid_empty_base_witness :
    base_images emptyFS = [] ∧ build_grid "b".toList "v".toList emptyFS = [] :=
  ⟨by decide, build_grid_empty_base "b".toList "v".toList emptyFS (by decide)⟩

/-- C4: after unload_distant_images runs, every key remaining in the image
cache is the path of a cell inside the given visible range or the current
fullscreen image key. -/
theorem unload_cache_subset (grid : List (List Str)) (sr er sc ec : ℕ)
    (cache : List Str) (fullscreen_image : Option Str) :
    ∀ path ∈ unload_distant_images grid sr er sc ec cache fullscreen_image,
      path ∈ visible_paths grid sr er sc ec ∨ fullscreen_image = some path := by
  intro path hp
  unfold unload_distant_images at hp
  rw [List.mem_filter] at hp
  rcases hp with ⟨-, hcond⟩
  rw [Bool.or_eq_true] at hcond
  rcases hcond with hv | hf
  · left; simpa using hv
  · right; simpa using hf

/-- C3: an anchored zoom whose recomputed scroll offset is not clamped by
the content bounds keeps the grid coordinate under the anchor pixel
unchanged, hence within one cell-size unit of rounding error. -/
theorem zoom_anchor_preserving (D screenW screenH : ℤ) (s : ViewState)
    (direction : ℤ) (mx my : ℚ)
    (hfs : s.fullscreen_image = none)
    (hold : s.cell_size ≠ 0)
    (hnew : (zoom_anchor_raw D s direction mx my).cell_size ≠ 0)
    (hnoclamp : enforce_scroll_bounds screenW screenH (zoom_anchor_raw D s direction mx my)
        = zoom_anchor_raw D s direction mx my) :
    |((zoom D screenW screenH s direction (some (mx, my))).scroll_offset_x + mx)
          / ((zoom D screenW screenH s direction (some (mx, my))).cell_size : ℚ)
        - (s.scroll_offset_x + mx) / (s.cell_size : ℚ)| < 1
      ∧ |((zoom D screenW screenH s direction (some (mx, my))).scroll_offset_y
            + my - (INFO_HEIGHT : ℚ))
          / ((zoom D screenW screenH s direction (some (mx, my))).cell_size : ℚ)
        - (s.scroll_offset_y + my - (INFO_HEIGHT : ℚ)) / (s.cell_size : ℚ)| < 1 := by
  have hz : zoom D screenW screenH s direction (some (mx, my))
      = zoom_anchor_raw D s direction mx my := by
    simp [zoom, hfs, hnoclamp]
  rw [hz]
  set t := zoom_anchor_raw D s direction mx my with ht
  have hx : t.scroll_offset_x
      = (s.scroll_offset_x + mx) / (s.cell_size : ℚ) * (t.cell_size : ℚ) - mx := rfl
  have hy : t.scroll_offset_y
      = (s.scroll_offset_y + my - (INFO_HEIGHT : ℚ)) / (s.cell_size : ℚ) * (t.cell_size : ℚ)
        - (my - (INFO_HEIGHT : ℚ)) := rfl
  have hcs : ((t.cell_size : ℤ) : ℚ) ≠ 0 := Int.cast_ne_zero.mpr hnew
  constructor
  · rw [hx]
    have hkey : ((s.scroll_offset_x + mx) / (s.cell_size : ℚ) * (t.cell_size : ℚ) - mx + mx)
        / (t.cell_size : ℚ) = (s.scroll_offset_x + mx) / (s.cell_size : ℚ) := by
      field_simp
      ring
    rw [hkey, sub_self, abs_zero]
    exact zero_lt_one
  · rw [hy]
    have hkey : ((s.scroll_offset_y + my - (INFO_HEIGHT : ℚ)) / (s.cell_size : ℚ)
            * (t.cell_size : ℚ) - (my - (INFO_HEIGHT : ℚ)) + my - (INFO_HEIGHT : ℚ))
        / (t.cell_size : ℚ)
        = (s.scroll_offset_y + my - (INFO_HEIGHT : ℚ)) / (s.cell_size : ℚ) := by
      field_simp
      ring
    rw [hkey, sub_self, abs_zero]
    exact zero_lt_one

/-- C3 witness: zooming in one step at anchor pixel (0, 30) on the example
viewport is unclamped and keeps the anchored grid coordinate fixed. -/
theorem zoom_anchor_preserving_witness :
    exView.fullscreen_image = none
      ∧ exView.cell_size ≠ 0
      ∧ (zoom_anchor_raw 100 exView 1 0 30).cell_size ≠ 0
      ∧ enforce_scroll_bounds 1024 768 (zoom_anchor_raw 100 exView 1 0 30)
          = zoom_anchor_raw 100 exView 1 0 30
      ∧ (|((zoom 100 1024 768 exView 1 (some (0, 30))).scroll_offset_x + 0)
              / ((zoom 100 1024 768 exView 1 (some (0, 30))).cell_size : ℚ)
            - (exView.scroll_offset_x + 0) / (exView.cell_size : ℚ)| < 1
          ∧ |((zoom 100 1024 768 exView 1 (some (0, 30))).scroll_offset_y
                + 30 - (INFO_HEIGHT : ℚ))
              / ((zoom 100 1024 768 exView 1 (some (0, 30))).cell_size : ℚ)
            - (exView.scroll_offset_y + 30 - (INFO_HEIGHT : ℚ)) / (exView.cell_size : ℚ)| < 1) :=
  ⟨rfl, by decide, by with_unfolding_all decide, by with_unfolding_all decide,
    zoom_anchor_preserving 100 1024 768 exView 1 0 30 rfl (by decide)
      (by with_unfolding_all decide) (by with_unfolding_all decide)⟩

/-- C10: while a fullscreen image is focused, zoom and scroll leave the
whole viewport state, in particular zoom_level, cell_size and the scroll
offset, unchanged for any arguments. -/
theorem fullscreen_zoom_scroll_noop (D screenW screenH : ℤ) (s : ViewState)
    (direction : ℤ) (mouse : Option (ℚ × ℚ)) (dx dy : ℚ) (p : Str)
    (h : s.fullscreen_image = some p) :
    zoom D screenW screenH s direction mouse = s
      ∧ scroll screenW screenH s dx dy = s := by
  constructor
  · simp [zoom, h]
  · simp [scroll, h]

/-- C10 witness: the no-op evaluated on the focused example viewport. -/
theorem fullscreen_zoom_scroll_noop_witness :
    exViewFS.fullscreen_image = some ['p']
      ∧ (zoom 100 1024 768 exViewFS 1 (some (10, 40)) = exViewFS
          ∧ scroll 1024 768 exViewFS 30 0 = exViewFS) :=
  ⟨rfl, fullscreen_zoom_scroll_noop 100 1024 768 exViewFS 1 (some (10, 40)) 30 0 ['p'] rfl⟩

/-- C6: from a focused state on a data cell (row and column at least 1,
inside the grid), navigate_fullscreen keeps the focus on a data cell
inside the grid, and any navigation whose target falls outside these
bounds leaves the state unchanged. -/
theorem navigate_fullscreen_bounds (grid : List (List Str)) (st : FocusState)
    (dir : NavDir) (p : Str) (r c : ℕ)
    (himg : st.fullscreen_image = some p)
    (hrow : st.fullscreen_row = some r)
    (hcol : st.fullscreen_col = some c)
    (hr1 : 1 ≤ r) (hc1 : 1 ≤ c)
    (hr : r < grid.length) (hc : c < (grid.getD r []).length) :
    (∃ r2 c2,
        (navigate_fullscreen grid grid.length st dir).fullscreen_row = some r2
          ∧ (navigate_fullscreen grid grid.length st dir).fullscreen_col = some c2
          ∧ 1 ≤ r2 ∧ 1 ≤ c2 ∧ r2 < grid.length ∧ c2 < (grid.getD r2 []).length)
      ∧ (nav_target grid grid.length r c dir = none →
          navigate_fullscreen grid grid.length st dir = st)
      ∧ (∀ nr nc, nav_target grid grid.length r c dir = some (nr, nc) →
          grid.length ≤ nr ∨ (grid.getD nr []).length ≤ nc →
          navigate_fullscreen grid grid.length st dir = st) := by
  by_cases hp : p = []
  · have hnav : navigate_fullscreen grid grid.length st dir = st := by
      simp [navigate_fullscreen, himg, hrow, hcol, hp]
    exact ⟨⟨r, c, by rw [hnav]; exact hrow, by rw [hnav]; exact hcol, hr1, hc1, hr, hc⟩,
      fun _ => hnav, fun _ _ _ _ => hnav⟩
  · rcases hdir : nav_target grid grid.length r c dir with _ | ⟨nr, nc⟩
    · have hnav : navigate_fullscreen grid grid.length st dir = st := by
        simp [navigate_fullscreen, himg, hrow, hcol, hp, hdir]
      refine ⟨⟨r, c, by rw [hnav]; exact hrow, by rw [hnav]; exact hcol, hr1, hc1, hr, hc⟩,
        fun _ => hnav, ?_⟩
      intro nr nc heq
      exact fun _ => Option.noConfusion heq
    · have hnav : navigate_fullscreen grid grid.length st dir
          = (if nr = r ∧ nc = c then st
             else if grid.length ≤ nr ∨ (grid.getD nr []).length ≤ nc then st
             else toggle_fullscreen grid st nr nc) := by
        simp [navigate_fullscreen, himg, hrow, hcol, hp, hdir]
      have hge : 1 ≤ nr ∧ 1 ≤ nc := by
        cases dir
        · simp only [nav_target, Option.some.injEq, Prod.mk.injEq] at hdir
          rcases hdir with ⟨h1, h2⟩
          exact ⟨h1 ▸ hr1, h2 ▸ Nat.le_max_left 1 (c - 1)⟩
        · simp only [nav_target] at hdir
          split at hdir
          · simp only [Option.some.injEq, Prod.mk.injEq] at hdir
            rcases hdir with ⟨h1, h2⟩
            exact ⟨h1 ▸ hr1, by omega⟩
          · cases hdir
        · simp only [nav_target, Option.some.injEq, Prod.mk.injEq] at hdir
          rcases hdir with ⟨h1, h2⟩
          exact ⟨h1 ▸ Nat.le_max_left 1 (r - 1), h2 ▸ hc1⟩
        · simp only [nav_target] at hdir
          split at hdir
          · simp only [Option.some.injEq, Prod.mk.injEq] at hdir
            rcases hdir with ⟨h1, h2⟩
            exact ⟨by omega, h2 ▸ hc1⟩
          · cases hdir
      refine ⟨?_, ?_, ?_⟩
      · rw [hnav]
        by_cases h1 : nr = r ∧ nc = c
        · rw [if_pos h1]
          exact ⟨r, c, hrow, hcol, hr1, hc1, hr, hc⟩
        · rw [if_neg h1]
          by_cases h2 : grid.length ≤ nr ∨ (grid.getD nr []).length ≤ nc
          · rw [if_pos h2]
            exact ⟨r, c, hrow, hcol, hr1, hc1, hr, hc⟩
          · rw [if_neg h2]
            push_neg at h2
            have htog : toggle_fullscreen grid st nr nc
                = { fullscreen_image := some ((grid.getD nr []).getD nc []),
                    fullscreen_row := some nr, fullscreen_col := some nc } := by
              unfold toggle_fullscreen
              rw [if_neg]
              intro hcon
              rcases hcon with ⟨ha, hb⟩
              rw [hrow] at ha
              rw [hcol] at hb
              exact h1 ⟨(Option.some.inj ha).symm, (Option.some.inj hb).symm⟩
            exact ⟨nr, nc, by rw [htog], by rw [htog], hge.1, hge.2, h2.1, h2.2⟩
      · intro h0
        exact Option.noConfusion h0
      · intro nr2 nc2 heq hoob
        cases heq
        rw [hnav]
        by_cases h1 : nr = r ∧ nc = c
        · rw [if_pos h1]
        · rw [if_neg h1, if_pos hoob]

/-- C6 witness: navigating down from cell (1, 1) of the example grid stays
on a data cell inside the grid. -/
theorem navigate_fullscreen_bounds_witness :
    (exFocus.fullscreen_image = some "b/x.png".toList
        ∧ exFocus.fullscreen_row = some 1
        ∧ exFocus.fullscreen_col = some 1
        ∧ 1 ≤ 1 ∧ 1 < exGrid.length ∧ 1 < (exGrid.getD 1 []).length)
      ∧ ((∃ r2 c2,
            (navigate_fullscreen exGrid exGrid.length exFocus .down).fullscreen_row = some r2
              ∧ (navigate_fullscreen exGrid exGrid.length exFocus .down).fullscreen_col = some c2
              ∧ 1 ≤ r2 ∧ 1 ≤ c2 ∧ r2 < exGrid.length
              ∧ c2 < (exGrid.getD r2 []).length)
          ∧ (nav_target exGrid exGrid.length 1 1 .down = none →
              navigate_fullscreen exGrid exGrid.length exFocus .down = exFocus)
          ∧ (∀ nr nc, nav_target exGrid exGrid.length 1 1 .down = some (nr, nc) →
              exGrid.length ≤ nr ∨ (exGrid.getD nr []).length ≤ nc →
              navigate_fullscreen exGrid exGrid.length exFocus .down = exFocus)) :=
  ⟨⟨rfl, rfl, rfl, by decide, by decide, by decide⟩,
    navigate_fullscreen_bounds exGrid exFocus .down "b/x.png".toList 1 1 rfl rfl rfl
      (by decide) (by decide) (by decide) (by decide)⟩

/-- C2: evaluation of draw_wrapped_text on a concrete failing input.  With
an additive font of character width 10 (ellipsis width 30), line height 10
and a 65 by 25 box, the budget is max_width = 55 and one line; the text
abcdefgh wraps to the line abcde and the final ellipsis step emits
abc... of width 60, exceeding the budget: the shrink loop tests the line
one character shorter than the line it finally appends the ellipsis to. -/
theorem draw_wrapped_text_width_overflow :
    draw_wrapped_text (fun s => 10 * s.length) 10 65 25 "abcdefgh".toList
        = ["abc...".toList]
      ∧ 65 - 10 < (10 * "abc...".toList.length : ℤ) := by
  decide

/-- Accumulator bound for the column-0 width fold: a step that either
keeps the accumulator or joins it with a value capped at 256 stays inside
the clamp interval. -/
theorem foldl_bounds_128_256 {α : Type} (f : ℕ → α → ℕ)
    (hf : ∀ acc x, 128 ≤ acc → acc ≤ 256 → 128 ≤ f acc x ∧ f acc x ≤ 256) :
    ∀ (l : List α) (acc : ℕ), 128 ≤ acc → acc ≤ 256 →
      128 ≤ l.foldl f acc ∧ l.foldl f acc ≤ 256
  | [], _, h1, h2 => ⟨h1, h2⟩
  | x :: xs, acc, h1, h2 =>
    foldl_bounds_128_256 f hf xs (f acc x) (hf acc x h1 h2).1 (hf acc x h1 h2).2

/-- A fold whose step fixes 256 keeps the accumulator at 256. -/
theorem foldl_const_256 {α : Type} (f : ℕ → α → ℕ) (hf : ∀ x, f 256 x = 256) :
    ∀ l : List α, l.foldl f 256 = 256
  | [] => rfl
  | x :: xs => by rw [List.foldl_cons, hf x]; exact foldl_const_256 f hf xs

/-- C9 counterexample: on the example grid the computed row-0 height of
the PNG export layout is 256, outside the claimed interval [128, 200]. -/
theorem export_row_0_height_out_of_range :
    export_row_0_height 14 exGrid = 256 ∧ ¬ export_row_0_height 14 exGrid ≤ 200 := by
  decide

/-- C9 amended: the column-0 width of the PNG export layout lies in
[128, 256]; the row-0 height always equals 256 (MIN_ROW_0_HEIGHT and
MAX_ROW_0_HEIGHT are swapped in the source, so the clamp collapses to the
256 starting value); every other row and column uses the current cell
size. -/
theorem export_layout_clamps (text_width : Str → ℕ) (line_height : ℕ)
    (grid : List (List Str)) (c0 r0 cell_size : ℕ) :
    (128 ≤ export_column_0_width text_width grid
        ∧ export_column_0_width text_width grid ≤ 256)
      ∧ export_row_0_height line_height grid = 256
      ∧ (∀ col, col ≠ 0 → export_cell_width c0 cell_size col = cell_size)
      ∧ (∀ row, row ≠ 0 → export_cell_height r0 cell_size row = cell_size) := by
  refine ⟨?_, ?_, ?_, ?_⟩
  · unfold export_column_0_width
    refine foldl_bounds_128_256 _ ?_ _ MIN_COLUMN_0_WIDTH ?_ ?_
    · intro acc row h1 h2
      dsimp only
      split_ifs <;>
        first
          | exact ⟨h1, h2⟩
          | exact ⟨le_trans h1 (Nat.le_max_left _ _),
              Nat.max_le.mpr ⟨h2, le_trans (Nat.min_le_right _ _)
                (by norm_num [MAX_COLUMN_0_WIDTH])⟩⟩
    · norm_num [MIN_COLUMN_0_WIDTH]
    · norm_num [MIN_COLUMN_0_WIDTH]
  · unfold export_row_0_height
    split
    · refine foldl_const_256 _ ?_ _
      intro col
      dsimp only
      split_ifs <;>
        first
          | rfl
          | exact Nat.max_eq_left (le_trans (Nat.min_le_right _ _)
              (by norm_num [MAX_ROW_0_HEIGHT]))
    · rfl
  · intro col hcol
    unfold export_cell_width
    rw [if_neg hcol]
  · intro row hrow
    unfold export_cell_height
    rw [if_neg hrow]

/-- C9 amended witness: the clamp bounds evaluated on the example grid
with an additive font of width 7, and the other rows and columns at cell
size 64. -/
theorem export_layout_clamps_witness :
    (128 ≤ export_column_0_width (fun s => 7 * s.length) exGrid
        ∧ export_column_0_width (fun s => 7 * s.length) exGrid ≤ 256)
      ∧ export_row_0_height 14 exGrid = 256
      ∧ export_cell_width 130 64 3 = 64
      ∧ export_cell_height 256 64 2 = 64 :=
  ⟨(export_layout_clamps (fun s => 7 * s.length) 14 exGrid 130 256 64).1,
   (export_layout_clamps (fun s => 7 * s.length) 14 exGrid 130 256 64).2.1,
   (export_layout_clamps (fun s => 7 * s.length) 14 exGrid 130 256 64).2.2.1 3 (by decide),
   (export_layout_clamps (fun s => 7 * s.length) 14 exGrid 130 256 64).2.2.2 2 (by decide)⟩

/-- C5: starting an export while one is in progress returns no job and
leaves the state unchanged, and a worker body, whatever the outcome of its
job function, clears the in-progress flag and posts exactly one
(kind, result) tuple to the completion queue. -/
theorem export_single_flight (s : ExportState) (filename : Option Str)
    (timestamp output_folder : Str) (h : s.export_in_progress = true) :
    start_export_grid s filename timestamp = (none, s)
      ∧ start_export_html s output_folder = (none, s)
      ∧ ∀ (s2 : ExportState) (result : Option Str),
          (export_grid_thread_body s2 result).export_in_progress = false
            ∧ (export_grid_thread_body s2 result).export_queue
                = s2.export_queue ++ [("grid".toList, result)]
            ∧ (export_html_thread_body s2 result).export_in_progress = false
            ∧ (export_html_thread_body s2 result).export_queue
                = s2.export_queue ++ [("html".toList, result)] := by
  refine ⟨?_, ?_, ?_⟩
  · unfold start_export_grid
    rw [if_pos h]
  · unfold start_export_html
    rw [if_pos h]
  · intro s2 result
    exact ⟨rfl, rfl, rfl, rfl⟩

/-- C5 witness: the single-flight rejection and the worker-body contract
evaluated on a busy export state. -/
theorem export_single_flight_witness :
    exExport.export_in_progress = true
      ∧ (start_export_grid exExport none "20240101_000000".toList = (none, exExport)
          ∧ start_export_html exExport "html_export".toList = (none, exExport)
          ∧ ∀ (s2 : ExportState) (result : Option Str),
              (export_grid_thread_body s2 result).export_in_progress = false
                ∧ (export_grid_thread_body s2 result).export_queue
                    = s2.export_queue ++ [("grid".toList, result)]
                ∧ (export_html_thread_body s2 result).export_in_progress = false
                ∧ (export_html_thread_body s2 result).export_queue
                    = s2.export_queue ++ [("html".toList, result)]) :=
  ⟨rfl, export_single_flight exExport none "20240101_000000".toList "html_export".toList rfl⟩

/-- C4 witness: the base-image cell kept in the cache over the visible
range rows 0-1, columns 0-1 of the example grid is a visible cell. -/
theorem unload_cache_subset_witness :
    "b/x.png".toList ∈ unload_distant_images exGrid 0 1 0 1 ["b/x.png".toList] none
      ∧ ("b/x.png".toList ∈ visible_paths exGrid 0 1 0 1
          ∨ (none : Option Str) = some "b/x.png".toList) :=
  ⟨by decide,
    unload_cache_subset exGrid 0 1 0 1 ["b/x.png".toList] none "b/x.png".toList (by decide)⟩
